import Mathlib

/-!
Verification of the Process-Supervised RPC Channel of `travian-bot-mac`
(`src-tauri/src/sidecar.rs`, with its callers in `lib.rs` and `commands.rs`).

The embedding models:
* JSON values as handled by `serde_json::Value` (`Json`, `jGet`, `asStr`,
  `asU64`);
* the body of the stdout-reader loop (`sidecar.rs` lines 97-129) as
  `handleStdoutLine`, a pure step on the pending map for one parsed line,
  and its iteration over a sequence of lines as `runReader`;
* the `call` facade (`sidecar.rs` lines 150-204) as `sidecarCall`, a pure
  function of the session state and of an environment describing the
  outcome of the stdin write and of awaiting the oneshot receiver;
* the id counter (`AtomicU64::fetch_add(1, SeqCst)`, wrapping at `2 ^ 64`)
  as `fetchAddId` / `allocIds`;
* the start / manage lifecycle (`start` in `sidecar.rs` plus the single
  call site in `lib.rs`) as `ManagedApp` / `startStep`.

The pending map `HashMap<u64, oneshot::Sender<...>>` is modelled by the
list of its keys (a `List Nat` with no duplicates in any reachable state);
fulfilling a sender with an outcome is modelled by the `delivered` field of
`ReaderStep`.
-/

namespace Sidecar

/-- JSON values, mirroring `serde_json::Value`. Numbers are modelled as
integers: `serde_json` stores integers exactly, and `as_u64` (the only
numeric accessor the code uses) returns `None` on every float, so floats
behave like any other non-`u64` value and are not modelled separately. -/
inductive Json where
  | null : Json
  | bool : Bool → Json
  | num : Int → Json
  | str : String → Json
  | arr : List Json → Json
  | obj : List (String × Json) → Json
deriving Repr

/-- Field access `msg.get(key)` of `serde_json::Value`: a lookup on objects,
`None` on every other variant. Object keys are unique in `serde_json`'s
map, so a first-match lookup is faithful. -/
def jGet : Json → String → Option Json
  | Json.obj kvs, k => List.lookup k kvs
  | _, _ => none

/-- Accessor `Value::as_str`: `Some` exactly on strings. -/
def asStr : Json → Option String
  | Json.str s => some s
  | _ => none

/-- Accessor `Value::as_u64`: `Some` exactly on integers representable as a
`u64`. -/
def asU64 : Json → Option Nat
  | Json.num n => if 0 ≤ n ∧ n < (2 : Int) ^ 64 then some n.toNat else none
  | _ => none

/-- Outcome sent over the oneshot channel for one response message
(`sidecar.rs` lines 111-121): if the message has an `error` field the
caller gets `Err` with the error's `message` string, defaulting to
`"Unknown sidecar error"`; otherwise `Ok` with the `result` field,
defaulting to `Null`. -/
def responseOutcome (msg : Json) : Except String Json :=
  match jGet msg "error" with
  | some err => Except.error ((Option.bind (jGet err "message") asStr).getD "Unknown sidecar error")
  | none => Except.ok ((jGet msg "result").getD Json.null)

/-- Effect of processing one parsed stdout line: the event emitted (if any),
the pending map afterwards, and the response delivered to a pending
sender (if any). -/
structure ReaderStep where
  emitted : Option (String × Json)
  pending : List Nat
  delivered : Option (Nat × Except String Json)
deriving Repr

/-- Body of the stdout-reader loop for one line that parsed as JSON
(`sidecar.rs` lines 100-123). The code first tries
`msg.get("event").and_then(|v| v.as_str())`: on success it emits the
event under the key `"sidecar:" ++ name` with the `data` field (default
`Null`) and touches nothing else. Otherwise (`else if`) it tries
`msg.get("id").and_then(|v| v.as_u64())`: on success it removes the id's
sender from the pending map, if present, and fulfils it with
`responseOutcome`; an absent id is a silent no-op. Any other shape does
nothing. -/
def handleStdoutLine (pending : List Nat) (msg : Json) : ReaderStep :=
  match Option.bind (jGet msg "event") asStr with
  | some eventName =>
      { emitted := some ("sidecar:" ++ eventName, (jGet msg "data").getD Json.null)
        pending := pending
        delivered := none }
  | none =>
      match Option.bind (jGet msg "id") asU64 with
      | some i =>
          if i ∈ pending then
            { emitted := none
              pending := pending.erase i
              delivered := some (i, responseOutcome msg) }
          else
            { emitted := none, pending := pending, delivered := none }
      | none => { emitted := none, pending := pending, delivered := none }

/-- Iteration of the stdout-reader loop over a sequence of parsed lines,
collecting the final pending map, the deliveries made and the events
emitted, in stream order. -/
def runReader (pending : List Nat) : List Json → List Nat × List (Nat × Except String Json) × List (String × Json)
  | [] => (pending, [], [])
  | m :: ms =>
      let s := handleStdoutLine pending m
      let r := runReader s.pending ms
      (r.1, (s.delivered.elim r.2.1 fun d => d :: r.2.1), (s.emitted.elim r.2.2 fun e => e :: r.2.2))

/-- Session state (`SidecarState`, `sidecar.rs` lines 21-26), restricted to
what `call` observes: whether the stdin handle is present (the
`Option<ChildStdin>` slot), the key set of the pending map, and the
`next_id` counter (initialised to 1 in `SidecarState::new`). -/
structure SessionState where
  stdinPresent : Bool
  pending : List Nat
  nextId : Nat
deriving Repr

/-- Outcome of the stdin write section (`sidecar.rs` lines 177-191) when the
handle is present: both `write_all` and `flush` succeed, or one of them
fails with an OS error message. -/
inductive WriteEnv where
  | ok : WriteEnv
  | writeErr : String → WriteEnv
  | flushErr : String → WriteEnv
deriving Repr

/-- Outcome of awaiting the oneshot receiver under the 30-second timeout
(`sidecar.rs` line 194): a response delivered by the stdout reader, the
channel closed without a value, or the timeout elapsing first. -/
inductive AwaitEnv where
  | response : Except String Json → AwaitEnv
  | closed : AwaitEnv
  | timeout : AwaitEnv
deriving Repr

/-- Id allocation `next_id.fetch_add(1, Ordering::SeqCst)` (`sidecar.rs`
line 159): returns the previous counter value and the incremented
counter, which wraps at `2 ^ 64` as `AtomicU64` does. -/
def fetchAddId (c : Nat) : Nat × Nat := (c, (c + 1) % 2 ^ 64)

/-- Observable outcome of one `call` invocation: the returned
`Result<Value, String>`, the session state after the call settles, the id
drawn from the counter (if any), and the number of request lines written
to the child's stdin. -/
structure CallFacadeResult where
  result : Except String Json
  state : Option SessionState
  allocated : Option Nat
  wrote : Nat
deriving Repr

/-- The `call` facade (`sidecar.rs` lines 150-204). With no managed state,
`try_state` fails and the call returns `Err "Sidecar not started"` before
touching the counter, the pending map or any stream. Otherwise the call
draws an id with `fetchAddId`, inserts the id into the pending map (lines
170-174), and enters the write section: if the stdin slot is empty it
returns `Err "Sidecar stdin not available"`; if `write_all` or `flush`
fails it returns the corresponding formatted error. On each of those
three error paths the function returns with the pending entry still in
the map. With the line written, awaiting the receiver yields: the
delivered outcome verbatim (the entry having been removed by the stdout
reader when it fulfilled the sender); `Err "Sidecar response channel
closed"` with no removal by `call`; or, on timeout, removal of the entry
followed by `Err "Sidecar call timed out (30s)"`. -/
def sidecarCall (state : Option SessionState) (w : WriteEnv) (a : AwaitEnv) : CallFacadeResult :=
  match state with
  | none => { result := Except.error "Sidecar not started", state := none, allocated := none, wrote := 0 }
  | some st =>
      let p := fetchAddId st.nextId
      let i := p.1
      let pending1 := i :: st.pending
      if st.stdinPresent then
        match w with
        | WriteEnv.writeErr e =>
            { result := Except.error ("Failed to write to sidecar: " ++ e)
              state := some { st with nextId := p.2, pending := pending1 }
              allocated := some i, wrote := 0 }
        | WriteEnv.flushErr e =>
            { result := Except.error ("Failed to flush sidecar stdin: " ++ e)
              state := some { st with nextId := p.2, pending := pending1 }
              allocated := some i, wrote := 1 }
        | WriteEnv.ok =>
            match a with
            | AwaitEnv.response r =>
                { result := r
                  state := some { st with nextId := p.2, pending := pending1.erase i }
                  allocated := some i, wrote := 1 }
            | AwaitEnv.closed =>
                { result := Except.error "Sidecar response channel closed"
                  state := some { st with nextId := p.2, pending := pending1 }
                  allocated := some i, wrote := 1 }
            | AwaitEnv.timeout =>
                { result := Except.error "Sidecar call timed out (30s)"
                  state := some { st with nextId := p.2, pending := pending1.erase i }
                  allocated := some i, wrote := 1 }
      else
        { result := Except.error "Sidecar stdin not available"
          state := some { st with nextId := p.2, pending := pending1 }
          allocated := some i, wrote := 0 }

/-- Pending-map key set after a call, reading an absent session as the
empty map. -/
def pendingAfter (r : CallFacadeResult) : List Nat :=
  match r.state with
  | some st => st.pending
  | none => []

/-- Ids drawn by `n` successive `fetchAddId` allocations starting from
counter value `c`. The counter is an `AtomicU64` and every concurrent
`call` draws via one atomic `fetch_add`, so any interleaving of `n` calls
observes exactly this sequence of ids in the order the atomic operations
commit. -/
def allocIds : Nat → Nat → List Nat
  | _, 0 => []
  | c, n + 1 => (fetchAddId c).1 :: allocIds (fetchAddId c).2 n

/-- Application-lifecycle model for `start` (`sidecar.rs` lines 61-147) with
Tauri's managed-state semantics: `managed` is the slot that
`handle.manage(state)` fills (`Manager::manage` stores a value of a given
type only if none is managed yet; a duplicate is dropped), and `procs`
records each child process ever spawned together with whether it is still
alive after the invocation of `start` that spawned it returned. -/
structure ManagedApp where
  managed : Option Nat
  procs : List Bool
deriving Repr

/-- One successful invocation of `start`: a fresh `SidecarState` is built, a
child process is spawned with `kill_on_drop(true)` (`sidecar.rs` line
78) and its handle stored in the new state, and the state is passed to
`handle.manage` (line 143). If no state is managed yet the new session
becomes the managed one and its child stays alive. If a state is already
managed, `manage` declines and drops the duplicate state; dropping it
drops the stored `Child` handle, and `kill_on_drop(true)` then
terminates the just-spawned process, so no second live session remains
and the managed session is unchanged. -/
def startStep (app : ManagedApp) : ManagedApp :=
  match app.managed with
  | none => { managed := some app.procs.length, procs := app.procs ++ [true] }
  | some j => { managed := some j, procs := app.procs ++ [false] }

/-- State after `n` invocations of `start` from the initial application
state (nothing managed, nothing spawned). -/
def startIter : Nat → ManagedApp
  | 0 => { managed := none, procs := [] }
  | n + 1 => startStep (startIter n)

/-! Helper lemmas about the stdout-reader step and its iteration. -/

/-- Every stdout-reader step either delivers nothing and leaves the pending
map unchanged, or delivers `responseOutcome` to some registered id and
erases exactly that id. -/
theorem handleStdoutLine_cases (p : List Nat) (m : Json) :
    ((handleStdoutLine p m).delivered = none ∧ (handleStdoutLine p m).pending = p) ∨
    (∃ i, i ∈ p ∧ (handleStdoutLine p m).delivered = some (i, responseOutcome m) ∧
      (handleStdoutLine p m).pending = p.erase i) := by
  unfold handleStdoutLine
  split
  · exact Or.inl ⟨rfl, rfl⟩
  · split
    · split
      · rename_i i heq hmem
        exact Or.inr ⟨i, hmem, rfl, rfl⟩
      · exact Or.inl ⟨rfl, rfl⟩
    · exact Or.inl ⟨rfl, rfl⟩

/-- Ids of deliveries made by the reader all come from the initial pending
map. -/
theorem runReader_delivered_mem (ms : List Json) :
    ∀ (p : List Nat), ∀ d ∈ (runReader p ms).2.1, d.1 ∈ p := by
  induction ms with
  | nil =>
      intro p d hd
      simp [runReader] at hd
  | cons m ms ih =>
      intro p d hd
      simp only [runReader] at hd
      rcases handleStdoutLine_cases p m with ⟨h1, h2⟩ | ⟨i, hmem, h1, h2⟩
      · simp only [h1, Option.elim] at hd
        have := ih _ d hd
        rwa [h2] at this
      · simp only [h1, Option.elim] at hd
        rcases List.mem_cons.mp hd with hd | hd
        · rw [hd]
          exact hmem
        · have := ih _ d hd
          rw [h2] at this
          exact List.mem_of_mem_erase this

/-- With a duplicate-free pending map, the reader fulfils each id at most
once over any sequence of lines: the ids of its deliveries are pairwise
distinct. -/
theorem runReader_ids_nodup (ms : List Json) :
    ∀ (p : List Nat), p.Nodup → (((runReader p ms).2.1).map Prod.fst).Nodup := by
  induction ms with
  | nil =>
      intro p _
      simp [runReader]
  | cons m ms ih =>
      intro p hp
      rcases handleStdoutLine_cases p m with ⟨h1, h2⟩ | ⟨i, hmem, h1, h2⟩
      · simp only [runReader, h1, Option.elim]
        rw [h2]
        exact ih p hp
      · simp only [runReader, h1, Option.elim, h2, List.map_cons]
        refine List.nodup_cons.mpr ⟨?_, ih _ (hp.erase i)⟩
        intro habs
        rcases List.mem_map.mp habs with ⟨d, hd, hfst⟩
        have hmem2 := runReader_delivered_mem ms (p.erase i) d hd
        rw [hfst] at hmem2
        exact hp.not_mem_erase hmem2

/-- Characterisation of id allocation while the counter has not wrapped:
starting from counter value `c`, `n` allocations yield exactly the ids
`c, c + 1, ..., c + n - 1`. -/
theorem allocIds_eq_range' (n : Nat) :
    ∀ c : Nat, c + n ≤ 2 ^ 64 → allocIds c n = List.range' c n := by
  induction n with
  | zero =>
      intro c _
      rfl
  | succ m ih =>
      intro c hc
      cases m with
      | zero => simp [allocIds, fetchAddId, List.range']
      | succ k =>
          have h1 : c + 1 < 2 ^ 64 := by omega
          have h2 : (c + 1) % 2 ^ 64 = c + 1 := Nat.mod_eq_of_lt h1
          rw [List.range'_succ]
          show (fetchAddId c).1 :: allocIds (fetchAddId c).2 (k + 1) = c :: List.range' (c + 1) (k + 1) 1
          rw [show (fetchAddId c).1 = c from rfl, show (fetchAddId c).2 = (c + 1) % 2 ^ 64 from rfl, h2,
            ih (c + 1) (by omega)]

/-- Reduction of `responseOutcome` when the message carries an `error`
field. -/
theorem responseOutcome_error (m e : Json) (herr : jGet m "error" = some e) :
    responseOutcome m =
      Except.error ((Option.bind (jGet e "message") asStr).getD "Unknown sidecar error") := by
  unfold responseOutcome
  rw [herr]

/-- Reduction of the `call` facade on the written-and-awaited path. -/
theorem sidecarCall_ok (st : SessionState) (a : AwaitEnv) (hstdin : st.stdinPresent = true) :
    sidecarCall (some st) WriteEnv.ok a =
      match a with
      | AwaitEnv.response r =>
          { result := r
            state := some { st with nextId := (st.nextId + 1) % 2 ^ 64, pending := st.pending }
            allocated := some st.nextId, wrote := 1 }
      | AwaitEnv.closed =>
          { result := Except.error "Sidecar response channel closed"
            state := some { st with nextId := (st.nextId + 1) % 2 ^ 64
                                    pending := st.nextId :: st.pending }
            allocated := some st.nextId, wrote := 1 }
      | AwaitEnv.timeout =>
          { result := Except.error "Sidecar call timed out (30s)"
            state := some { st with nextId := (st.nextId + 1) % 2 ^ 64, pending := st.pending }
            allocated := some st.nextId, wrote := 1 } := by
  cases a <;> simp [sidecarCall, fetchAddId, hstdin]

/-! Claim theorems. -/

/-- C7: invoking `call` with no managed session state fails immediately with
the not-started error, allocates no request id, inserts no PendingMap
entry and writes nothing to any stream, whatever the environment would
have done. -/
theorem call_before_start_not_started (w : WriteEnv) (a : AwaitEnv) :
    sidecarCall none w a =
      { result := Except.error "Sidecar not started"
        state := none, allocated := none, wrote := 0 } := rfl

/-- C1 counterexample: a `call` against a session whose stdin handle is
absent (state `⟨false, ∅, next id 1⟩`) registers the PendingMap entry for
its id 1 and then returns the stdin-missing error with that entry still
registered, so the entry is neither removed by a response nor by timeout
cleanup before the call's lifetime ends — refuting the claim's coverage
of this error path. -/
theorem call_stdin_missing_leaks_pending_entry :
    (sidecarCall (some ⟨false, [], 1⟩) WriteEnv.ok AwaitEnv.timeout).result =
      Except.error "Sidecar stdin not available" ∧
    (sidecarCall (some ⟨false, [], 1⟩) WriteEnv.ok AwaitEnv.timeout).allocated = some 1 ∧
    pendingAfter (sidecarCall (some ⟨false, [], 1⟩) WriteEnv.ok AwaitEnv.timeout) = [1] :=
  ⟨rfl, rfl, rfl⟩

/-- C1 (amended): every invocation of `call` with a live session creates
exactly one PendingMap entry, for the freshly allocated id. On the paths
where the request line is written and the call completes by a matching
response or by its 30-second timeout, that entry is removed again before
the call returns. On the error paths — stdin handle absent, `write_all`
failure, `flush` failure — the call returns with the entry still
registered. -/
theorem call_pending_entry_lifecycle :
    (∀ (st : SessionState) (w : WriteEnv) (a : AwaitEnv),
        (sidecarCall (some st) w a).allocated = some st.nextId) ∧
    (∀ (st : SessionState) (r : Except String Json),
        st.stdinPresent = true →
        pendingAfter (sidecarCall (some st) WriteEnv.ok (AwaitEnv.response r)) = st.pending) ∧
    (∀ st : SessionState,
        st.stdinPresent = true →
        pendingAfter (sidecarCall (some st) WriteEnv.ok AwaitEnv.timeout) = st.pending) ∧
    (∀ (st : SessionState) (w : WriteEnv) (a : AwaitEnv),
        st.stdinPresent = false →
        pendingAfter (sidecarCall (some st) w a) = st.nextId :: st.pending) ∧
    (∀ (st : SessionState) (e : String) (a : AwaitEnv),
        st.stdinPresent = true →
        pendingAfter (sidecarCall (some st) (WriteEnv.writeErr e) a) = st.nextId :: st.pending) ∧
    (∀ (st : SessionState) (e : String) (a : AwaitEnv),
        st.stdinPresent = true →
        pendingAfter (sidecarCall (some st) (WriteEnv.flushErr e) a) = st.nextId :: st.pending) := by
  refine ⟨?_, ?_, ?_, ?_, ?_, ?_⟩
  · intro st w a
    by_cases h : st.stdinPresent <;> cases w <;> cases a <;> simp [sidecarCall, fetchAddId, h]
  · intro st r h
    rw [sidecarCall_ok st (AwaitEnv.response r) h]
    rfl
  · intro st h
    rw [sidecarCall_ok st AwaitEnv.timeout h]
    rfl
  · intro st w a h
    cases w <;> simp [sidecarCall, pendingAfter, fetchAddId, h]
  · intro st e a h
    simp [sidecarCall, pendingAfter, fetchAddId, h]
  · intro st e a h
    simp [sidecarCall, pendingAfter, fetchAddId, h]

/-- C1 (amended) witness: the six conjuncts evaluated at concrete states,
covering the response, timeout, stdin-absent, write-failure and
flush-failure paths. -/
theorem call_pending_entry_lifecycle_witness :
    (sidecarCall (some ⟨true, [], 1⟩) WriteEnv.ok AwaitEnv.closed).allocated = some 1 ∧
    pendingAfter (sidecarCall (some ⟨true, [5], 1⟩) WriteEnv.ok
      (AwaitEnv.response (Except.ok Json.null))) = [5] ∧
    pendingAfter (sidecarCall (some ⟨true, [5], 1⟩) WriteEnv.ok AwaitEnv.timeout) = [5] ∧
    pendingAfter (sidecarCall (some ⟨false, [], 3⟩) WriteEnv.ok AwaitEnv.timeout) = [3] ∧
    pendingAfter (sidecarCall (some ⟨true, [], 3⟩) (WriteEnv.writeErr "broken pipe")
      AwaitEnv.timeout) = [3] ∧
    pendingAfter (sidecarCall (some ⟨true, [], 3⟩) (WriteEnv.flushErr "broken pipe")
      AwaitEnv.timeout) = [3] :=
  ⟨call_pending_entry_lifecycle.1 ⟨true, [], 1⟩ WriteEnv.ok AwaitEnv.closed,
   call_pending_entry_lifecycle.2.1 ⟨true, [5], 1⟩ (Except.ok Json.null) rfl,
   call_pending_entry_lifecycle.2.2.1 ⟨true, [5], 1⟩ rfl,
   call_pending_entry_lifecycle.2.2.2.1 ⟨false, [], 3⟩ WriteEnv.ok AwaitEnv.timeout rfl,
   call_pending_entry_lifecycle.2.2.2.2.1 ⟨true, [], 3⟩ "broken pipe" AwaitEnv.timeout rfl,
   call_pending_entry_lifecycle.2.2.2.2.2 ⟨true, [], 3⟩ "broken pipe" AwaitEnv.timeout rfl⟩

/-- C2 counterexample: the parsed line with an `event` field holding the
number 5 has the `event` field present, yet the reader publishes nothing
for it — refuting the claim that presence of an `event` field implies
publication. -/
theorem nonstring_event_field_not_published :
    (jGet (Json.obj [("event", Json.num 5)]) "event").isSome = true ∧
    (handleStdoutLine [] (Json.obj [("event", Json.num 5)])).emitted = none :=
  ⟨rfl, rfl⟩

/-- C2 (amended): the reader classifies every parsed line exactly as
follows — presence of an `event` field holding a JSON string implies
publication to the event sink under the key derived from that event name
(prefixed `sidecar:`), with everything else untouched; absence of such a
string-valued `event` field but presence of an `id` field parsing as an
unsigned integer implies routing to the pending map as the response for
that `id` (fulfilling the registered entry when present); any other
shape is discarded with no effect. -/
theorem stdout_line_classification :
    (∀ (p : List Nat) (m : Json) (name : String),
        Option.bind (jGet m "event") asStr = some name →
        handleStdoutLine p m =
          { emitted := some ("sidecar:" ++ name, (jGet m "data").getD Json.null)
            pending := p, delivered := none }) ∧
    (∀ (p : List Nat) (m : Json) (i : Nat),
        Option.bind (jGet m "event") asStr = none →
        Option.bind (jGet m "id") asU64 = some i →
        i ∈ p →
        handleStdoutLine p m =
          { emitted := none, pending := p.erase i
            delivered := some (i, responseOutcome m) }) ∧
    (∀ (p : List Nat) (m : Json),
        Option.bind (jGet m "event") asStr = none →
        Option.bind (jGet m "id") asU64 = none →
        handleStdoutLine p m = { emitted := none, pending := p, delivered := none }) := by
  refine ⟨?_, ?_, ?_⟩
  · intro p m name hev
    unfold handleStdoutLine
    rw [hev]
  · intro p m i hev hid hmem
    unfold handleStdoutLine
    simp only [hev, hid]
    rw [if_pos hmem]
  · intro p m hev hid
    unfold handleStdoutLine
    simp only [hev, hid]

/-- C2 (amended) witness: the three classification branches evaluated at
concrete lines. -/
theorem stdout_line_classification_witness :
    handleStdoutLine [] (Json.obj [("event", Json.str "logUpdate"), ("data", Json.str "tick")]) =
      { emitted := some ("sidecar:logUpdate", Json.str "tick"), pending := [], delivered := none } ∧
    handleStdoutLine [1] (Json.obj [("id", Json.num 1), ("result", Json.num 7)]) =
      { emitted := none, pending := [], delivered := some (1, Except.ok (Json.num 7)) } ∧
    handleStdoutLine [1] (Json.obj [("x", Json.num 0)]) =
      { emitted := none, pending := [1], delivered := none } :=
  ⟨stdout_line_classification.1 [] (Json.obj [("event", Json.str "logUpdate"), ("data", Json.str "tick")]) "logUpdate" rfl,
   stdout_line_classification.2.1 [1] (Json.obj [("id", Json.num 1), ("result", Json.num 7)]) 1 rfl rfl (by decide),
   stdout_line_classification.2.2 [1] (Json.obj [("x", Json.num 0)]) rfl rfl⟩

/-- C3: a response carrying an `error` field makes the call fail — with the
child-provided `message` string when one is present — while a response
without an `error` field makes the call succeed with its `result` value
(defaulting to `Null`); the written-and-awaited call returns the
delivered outcome verbatim. -/
theorem response_error_and_result_delivery :
    (∀ (m e : Json) (s : String),
        jGet m "error" = some e →
        Option.bind (jGet e "message") asStr = some s →
        responseOutcome m = Except.error s) ∧
    (∀ m : Json,
        jGet m "error" = none →
        responseOutcome m = Except.ok ((jGet m "result").getD Json.null)) ∧
    (∀ (st : SessionState) (r : Except String Json),
        st.stdinPresent = true →
        (sidecarCall (some st) WriteEnv.ok (AwaitEnv.response r)).result = r) := by
  refine ⟨?_, ?_, ?_⟩
  · intro m e s herr hmsg
    rw [responseOutcome_error m e herr, hmsg]
    rfl
  · intro m herr
    unfold responseOutcome
    rw [herr]
  · intro st r h
    rw [sidecarCall_ok st (AwaitEnv.response r) h]

/-- C3 witness: an error response with message `"boom"`, a success response
with a result array, and the delivery of an outcome through the call
facade, all at concrete inputs. -/
theorem response_error_and_result_delivery_witness :
    responseOutcome (Json.obj [("id", Json.num 1), ("error", Json.obj [("message", Json.str "boom")])]) =
      Except.error "boom" ∧
    responseOutcome (Json.obj [("id", Json.num 1), ("result", Json.arr [Json.str "srv-a", Json.str "srv-b"])]) =
      Except.ok (Json.arr [Json.str "srv-a", Json.str "srv-b"]) ∧
    (sidecarCall (some ⟨true, [], 1⟩) WriteEnv.ok
      (AwaitEnv.response (Except.ok (Json.str "ok")))).result = Except.ok (Json.str "ok") :=
  ⟨response_error_and_result_delivery.1
      (Json.obj [("id", Json.num 1), ("error", Json.obj [("message", Json.str "boom")])])
      (Json.obj [("message", Json.str "boom")]) "boom" rfl rfl,
   response_error_and_result_delivery.2.1
      (Json.obj [("id", Json.num 1), ("result", Json.arr [Json.str "srv-a", Json.str "srv-b"])]) rfl,
   response_error_and_result_delivery.2.2 ⟨true, [], 1⟩ (Except.ok (Json.str "ok")) rfl⟩


/-- C4: a written call whose receiver is not fulfilled within the 30-second
timeout fails with the timeout error and removes its own id's entry from
the PendingMap before returning, so the id is absent afterwards and a
stray response arriving later finds no entry for it. -/
theorem timeout_cleans_pending_entry (st : SessionState)
    (hstdin : st.stdinPresent = true) (hfresh : st.nextId ∉ st.pending) :
    (sidecarCall (some st) WriteEnv.ok AwaitEnv.timeout).result =
      Except.error "Sidecar call timed out (30s)" ∧
    pendingAfter (sidecarCall (some st) WriteEnv.ok AwaitEnv.timeout) = st.pending ∧
    st.nextId ∉ pendingAfter (sidecarCall (some st) WriteEnv.ok AwaitEnv.timeout) := by
  rw [sidecarCall_ok st AwaitEnv.timeout hstdin]
  exact ⟨rfl, rfl, hfresh⟩

/-- C4 witness: the timeout path evaluated at the concrete state
`⟨true, ∅, next id 1⟩`. -/
theorem timeout_cleans_pending_entry_witness :
    (sidecarCall (some ⟨true, [], 1⟩) WriteEnv.ok AwaitEnv.timeout).result =
      Except.error "Sidecar call timed out (30s)" ∧
    pendingAfter (sidecarCall (some ⟨true, [], 1⟩) WriteEnv.ok AwaitEnv.timeout) = [] ∧
    1 ∉ pendingAfter (sidecarCall (some ⟨true, [], 1⟩) WriteEnv.ok AwaitEnv.timeout) :=
  timeout_cleans_pending_entry ⟨true, [], 1⟩ rfl (by decide)

/-- C5: a response line whose id is not registered in the PendingMap leaves
the map untouched, emits nothing and delivers nothing; and over any
sequence of lines processed from a duplicate-free map, each id's
completion handle is fulfilled at most once. -/
theorem unknown_id_response_is_noop :
    (∀ (p : List Nat) (m : Json) (i : Nat),
        Option.bind (jGet m "event") asStr = none →
        Option.bind (jGet m "id") asU64 = some i →
        i ∉ p →
        handleStdoutLine p m = { emitted := none, pending := p, delivered := none }) ∧
    (∀ (p : List Nat) (ms : List Json),
        p.Nodup → (((runReader p ms).2.1).map Prod.fst).Nodup) := by
  constructor
  · intro p m i hev hid hmem
    unfold handleStdoutLine
    simp only [hev, hid]
    rw [if_neg hmem]
  · intro p ms hp
    exact runReader_ids_nodup ms p hp

/-- C5 witness: a response for the unregistered id 1 is a no-op on the map
holding only id 2, and two successive responses for id 2 fulfil it only
once. -/
theorem unknown_id_response_is_noop_witness :
    handleStdoutLine [2] (Json.obj [("id", Json.num 1), ("result", Json.str "ok")]) =
      { emitted := none, pending := [2], delivered := none } ∧
    (((runReader [2] [Json.obj [("id", Json.num 2)],
        Json.obj [("id", Json.num 2)]]).2.1).map Prod.fst).Nodup :=
  ⟨unknown_id_response_is_noop.1 [2]
      (Json.obj [("id", Json.num 1), ("result", Json.str "ok")]) 1 rfl rfl (by decide),
   unknown_id_response_is_noop.2 [2]
      [Json.obj [("id", Json.num 2)], Json.obj [("id", Json.num 2)]] (by decide)⟩

/-- C6: across any sequence of invocations of `start`, at most one child
process is alive at a time and the managed session is the one installed
by the first invocation — a later `start` does not create a second live
session, because `manage` declines the duplicate state and dropping it
kills the freshly spawned child via `kill_on_drop`. -/
theorem at_most_one_live_session (n : Nat) :
    (startIter n).procs.count true ≤ 1 ∧
    (startIter n).managed = (if n = 0 then none else some 0) := by
  induction n with
  | zero => exact ⟨by simp [startIter], rfl⟩
  | succ m ih =>
      obtain ⟨h1, h2⟩ := ih
      cases m with
      | zero =>
          constructor
          · simp [startIter, startStep]
          · simp [startIter, startStep]
      | succ k =>
          have h2' : (startIter (k + 1)).managed = some 0 := by simpa using h2
          constructor
          · show (startStep (startIter (k + 1))).procs.count true ≤ 1
            unfold startStep
            rw [h2']
            simpa using h1
          · show (startStep (startIter (k + 1))).managed = if k + 1 + 1 = 0 then none else some 0
            unfold startStep
            rw [h2']
            simp

/-- C8: while the id counter has not wrapped its `u64` range — which takes
`2 ^ 64` calls — the ids allocated by successive invocations of `call`
within one session are exactly `1, 2, ..., N`: strictly increasing from
1, hence pairwise distinct with no reuse; concurrent interleavings are
covered because each call draws its id by one atomic `fetch_add`, so any
interleaving observes this same id sequence. -/
theorem ids_strictly_increasing_from_one (n : Nat) (h : n + 1 ≤ 2 ^ 64) :
    allocIds 1 n = List.range' 1 n ∧
    List.Pairwise (· < ·) (allocIds 1 n) ∧ (allocIds 1 n).Nodup := by
  have he := allocIds_eq_range' n 1 (by omega)
  refine ⟨he, ?_, ?_⟩
  · rw [he]
    exact List.pairwise_lt_range' 1 n
  · rw [he]
    exact List.nodup_range' 1 n

/-- C8 witness: three allocations from a fresh session yield the ids
`[1, 2, 3]`, strictly increasing and pairwise distinct. -/
theorem ids_strictly_increasing_from_one_witness :
    3 + 1 ≤ 2 ^ 64 ∧
    (allocIds 1 3 = List.range' 1 3 ∧
      List.Pairwise (· < ·) (allocIds 1 3) ∧ (allocIds 1 3).Nodup) :=
  ⟨by norm_num, ids_strictly_increasing_from_one 3 (by norm_num)⟩

/-- Every line whose `event` field does not hold a JSON string publishes
nothing, whatever else the line carries: with the event branch declined,
each remaining branch of the reader body leaves `emitted` empty. -/
theorem handleStdoutLine_emitted_none (p : List Nat) (m : Json)
    (hev2 : Option.bind (jGet m "event") asStr = none) :
    (handleStdoutLine p m).emitted = none := by
  unfold handleStdoutLine
  simp only [hev2]
  split
  · rename_i i heq
    by_cases hmem : i ∈ p
    · rw [if_pos hmem]
    · rw [if_neg hmem]
  · rfl

/-- C9: every parsed line whose `event` field is present but not a JSON
string publishes no event — whether or not the line carries an id, and
whether or not that id is registered; and when such a line also carries
an `id` field parsing as an unsigned integer registered in the pending
map, it is treated as a response: the pending entry is removed and
fulfilled with the line's outcome. -/
theorem nonstring_event_routes_as_response :
    (∀ (p : List Nat) (m v : Json),
        jGet m "event" = some v → asStr v = none →
        (handleStdoutLine p m).emitted = none) ∧
    (∀ (p : List Nat) (m v : Json) (i : Nat),
        jGet m "event" = some v → asStr v = none →
        Option.bind (jGet m "id") asU64 = some i → i ∈ p →
        handleStdoutLine p m =
          { emitted := none, pending := p.erase i
            delivered := some (i, responseOutcome m) }) := by
  have hnone : ∀ (m v : Json), jGet m "event" = some v → asStr v = none →
      Option.bind (jGet m "event") asStr = none := by
    intro m v hev hnstr
    rw [hev]
    exact hnstr
  constructor
  · intro p m v hev hnstr
    exact handleStdoutLine_emitted_none p m (hnone m v hev hnstr)
  · intro p m v i hev hnstr hid hmem
    unfold handleStdoutLine
    simp only [hnone m v hev hnstr, hid]
    rw [if_pos hmem]

/-- C9 witness: the id-less line with `event` holding the number 5 publishes
nothing, and the same non-string event alongside the registered `id` 1
fulfils the pending call under id 1 without publishing any event. -/
theorem nonstring_event_routes_as_response_witness :
    (handleStdoutLine [] (Json.obj [("event", Json.num 5)])).emitted = none ∧
    handleStdoutLine [1]
        (Json.obj [("event", Json.num 5), ("id", Json.num 1), ("result", Json.str "ok")]) =
      { emitted := none, pending := [], delivered := some (1, Except.ok (Json.str "ok")) } :=
  ⟨nonstring_event_routes_as_response.1 [] (Json.obj [("event", Json.num 5)]) (Json.num 5) rfl rfl,
   nonstring_event_routes_as_response.2 [1]
     (Json.obj [("event", Json.num 5), ("id", Json.num 1), ("result", Json.str "ok")])
     (Json.num 5) 1 rfl rfl rfl (by decide)⟩

/-- C10: a response whose `error` field lacks a string `message` sub-field
resolves the caller's outcome to failure with exactly the fixed message
"Unknown sidecar error", and the call facade surfaces that failure
verbatim. -/
theorem missing_error_message_fallback (m e : Json) (st : SessionState)
    (herr : jGet m "error" = some e)
    (hmsg : Option.bind (jGet e "message") asStr = none)
    (hstdin : st.stdinPresent = true) :
    responseOutcome m = Except.error "Unknown sidecar error" ∧
    (sidecarCall (some st) WriteEnv.ok (AwaitEnv.response (responseOutcome m))).result =
      Except.error "Unknown sidecar error" := by
  have h1 : responseOutcome m = Except.error "Unknown sidecar error" := by
    rw [responseOutcome_error m e herr, hmsg]
    rfl
  refine ⟨h1, ?_⟩
  rw [sidecarCall_ok st (AwaitEnv.response (responseOutcome m)) hstdin]
  exact h1

/-- C10 witness: the error object holding only a `code` field yields the
fixed fallback message, through `responseOutcome` and through the call
facade. -/
theorem missing_error_message_fallback_witness :
    responseOutcome (Json.obj [("id", Json.num 1), ("error", Json.obj [("code", Json.num 3)])]) =
      Except.error "Unknown sidecar error" ∧
    (sidecarCall (some ⟨true, [], 1⟩) WriteEnv.ok
      (AwaitEnv.response (responseOutcome
        (Json.obj [("id", Json.num 1), ("error", Json.obj [("code", Json.num 3)])])))).result =
      Except.error "Unknown sidecar error" :=
  missing_error_message_fallback
    (Json.obj [("id", Json.num 1), ("error", Json.obj [("code", Json.num 3)])])
    (Json.obj [("code", Json.num 3)]) ⟨true, [], 1⟩ rfl rfl rfl

end Sidecar
